import Mathlib

/-!
Shallow embedding of the Australian payslip calculator
(`src/unnamed/part_001`, component `PayslipCalculator`).

Modelling conventions:

* JavaScript numbers are modelled as exact rationals.  A value that can be
  `NaN` at run time is modelled as `JSNum := Option ℚ` with `none` playing
  the role of `NaN`; arithmetic propagates `none` and every comparison with
  `none` is `false`, exactly as JS comparisons with `NaN`.
* Division is exact rational division.  `jdiv` returns `none` for a zero
  divisor; in the source every divisor is a fixed non-zero constant or a
  value proved non-zero, so this branch is unreachable in all reachable
  computations.
* The string-typed numeric form fields (`annualSalary`, `fullTimeHours`,
  `fte`) are modelled by `NumInput`: `.empty` is the empty string (falsy,
  `parseFloat` gives `NaN`), `.lit (some q)` is a non-empty string that
  `parseFloat` parses to `q` (e.g. "90000"), and `.lit none` is a non-empty
  string on which `parseFloat` yields `NaN` (e.g. "abc").
* The date form fields come from `<input type="date">` controls, whose value
  is either empty or a valid `YYYY-MM-DD` string; they are modelled as
  `Option CivilDate`, with `none` for the empty string.  `Date.getTime` is
  modelled via the standard civil-from-days conversion at UTC midnight.
* `Infinity` occurs only as the `max` of the last bracket of the static
  tables; a bracket `max` is therefore `Option ℚ` with `none` = `+∞`.
* The `taxYear` select offers exactly "2024-25" and "2025-26" and the
  `payFrequency` select offers exactly four values; `PayFrequency.unknown`
  models any other string, for which the source lookups fall back to
  `26.09` and `14` via `||`.
-/

namespace Payslip

/-- A JavaScript number that may be `NaN` (`none`). -/
abbrev JSNum := Option ℚ

/-- JS addition; `NaN` propagates. -/
def jadd : JSNum → JSNum → JSNum
  | some a, some b => some (a + b)
  | _, _ => none

/-- JS subtraction; `NaN` propagates. -/
def jsub : JSNum → JSNum → JSNum
  | some a, some b => some (a - b)
  | _, _ => none

/-- JS multiplication; `NaN` propagates. -/
def jmul : JSNum → JSNum → JSNum
  | some a, some b => some (a * b)
  | _, _ => none

/-- JS division; `NaN` propagates.  A zero divisor is mapped to `none`;
no division in the source ever has a zero divisor (all divisors are fixed
non-zero constants or values proved non-zero). -/
def jdiv : JSNum → JSNum → JSNum
  | some a, some b => if b = 0 then none else some (a / b)
  | _, _ => none

/-- JS `<=`; any comparison with `NaN` is `false`. -/
def jleB : JSNum → JSNum → Bool
  | some a, some b => decide (a ≤ b)
  | _, _ => false

/-- JS `>=`; any comparison with `NaN` is `false`. -/
def jgeB : JSNum → JSNum → Bool
  | some a, some b => decide (b ≤ a)
  | _, _ => false

/-- JS `x <= m` where `m` is a table bound that may be `Infinity` (`none`).
`NaN <= m` is `false`; `x <= Infinity` is `true` for a non-`NaN` `x`. -/
def jleUpper : JSNum → Option ℚ → Bool
  | some a, some m => decide (a ≤ m)
  | some _, none => true
  | none, _ => false

/-- JS `Math.min`; returns `NaN` if either argument is `NaN`. -/
def jmin : JSNum → JSNum → JSNum
  | some a, some b => some (min a b)
  | _, _ => none

/-- A numeric `<input>`'s string value: empty, or non-empty parsing to `q`
(`.lit (some q)`), or non-empty unparseable (`.lit none`, e.g. "abc"). -/
inductive NumInput where
  | empty
  | lit (v : Option ℚ)
deriving DecidableEq

/-- JS truthiness of the string: only the empty string is falsy. -/
def truthy : NumInput → Bool
  | .empty => false
  | .lit _ => true

/-- JS `parseFloat` on the string: `NaN` (`none`) on the empty or an
unparseable string. -/
def parseFloat : NumInput → JSNum
  | .empty => none
  | .lit v => v

/-- JS `x || d` applied to a parsed number `x`: `NaN` and `0` are falsy and
give the default `d`. -/
def orDefault (a : JSNum) (d : ℚ) : ℚ :=
  match a with
  | none => d
  | some q => if q = 0 then d else q

/-- A calendar date as entered in a `YYYY-MM-DD` date field
(`month` is 1-based). -/
structure CivilDate where
  year : ℤ
  month : ℤ
  day : ℤ
deriving DecidableEq

/-- Days since the Unix epoch of a civil date (standard civil-from-days
conversion, proleptic Gregorian calendar, valid for `month ∈ [1,12]`). -/
def daysFromCivil (y m d : ℤ) : ℤ :=
  let y1 := if m ≤ 2 then y - 1 else y
  let era := Int.fdiv y1 400
  let yoe := y1 - era * 400
  let mp := if m ≤ 2 then m + 9 else m - 3
  let doy := Int.fdiv (153 * mp + 2) 5 + d - 1
  let doe := yoe * 365 + Int.fdiv yoe 4 - Int.fdiv yoe 100 + doy
  era * 146097 + doe - 719468

/-- `Date.getTime()` in milliseconds of a date at UTC midnight. -/
def jsTime (d : CivilDate) : ℚ :=
  ((daysFromCivil d.year d.month d.day : ℤ) : ℚ) * 86400000

/-- JS `Date.getMonth()` (0-based month). -/
def jsMonth (d : CivilDate) : ℤ := d.month - 1

/-- The `payFrequency` select's values; `unknown` stands for any other
string, for which the source lookups fall back via `||`. -/
inductive PayFrequency where
  | weekly
  | fortnightly
  | monthly
  | quarterly
  | unknown
deriving DecidableEq

/-- The `taxYear` select's values. -/
inductive TaxYear where
  | y2024_25
  | y2025_26
deriving DecidableEq

/-- One progressive income-tax bracket; `max = none` is `Infinity`. -/
structure TaxBracket where
  min : ℚ
  max : Option ℚ
  rate : ℚ
  offset : ℚ
deriving DecidableEq

/-- One Medicare-levy-surcharge bracket; `max = none` is `Infinity`. -/
structure RateBracket where
  min : ℚ
  max : Option ℚ
  rate : ℚ
deriving DecidableEq

/-- `taxBrackets` table. -/
def taxBrackets : TaxYear → List TaxBracket
  | .y2024_25 =>
      [⟨0, some 18200, 0, 0⟩,
       ⟨18201, some 45000, 0.19, 0⟩,
       ⟨45001, some 120000, 0.325, 5092⟩,
       ⟨120001, some 180000, 0.37, 29467⟩,
       ⟨180001, none, 0.45, 51667⟩]
  | .y2025_26 =>
      [⟨0, some 18200, 0, 0⟩,
       ⟨18201, some 45000, 0.16, 0⟩,
       ⟨45001, some 135000, 0.30, 4288⟩,
       ⟨135001, some 190000, 0.37, 31288⟩,
       ⟨190001, none, 0.45, 51638⟩]

/-- `medicareLevy` rate table. -/
def medicareLevy : TaxYear → ℚ
  | .y2024_25 => 0.02
  | .y2025_26 => 0.02

/-- `superRates` table. -/
def superRates : TaxYear → ℚ
  | .y2024_25 => 0.115
  | .y2025_26 => 0.12

/-- `medicareLevyThresholds` table entry. -/
structure LevyThresholds where
  lower : ℚ
  upper : ℚ
deriving DecidableEq

/-- `medicareLevyThresholds` table. -/
def medicareLevyThresholds : TaxYear → LevyThresholds
  | .y2024_25 => ⟨27222, 34027⟩
  | .y2025_26 => ⟨27222, 34027⟩

/-- `mlsThresholds` table. -/
def mlsThresholds : TaxYear → List RateBracket
  | .y2024_25 =>
      [⟨0, some 97000, 0⟩,
       ⟨97001, some 113000, 0.01⟩,
       ⟨113001, some 151000, 0.0125⟩,
       ⟨151001, none, 0.015⟩]
  | .y2025_26 =>
      [⟨0, some 101000, 0⟩,
       ⟨101001, some 118000, 0.01⟩,
       ⟨118001, some 158000, 0.0125⟩,
       ⟨158001, none, 0.015⟩]

/-- The `for`/`break` loop of `calculateTax`: first bracket whose
`[min, max]` contains the income wins; `tax` stays `0` if none matches. -/
def calculateTaxAux (x : JSNum) : List TaxBracket → JSNum
  | [] => some 0
  | b :: bs =>
      if jgeB x (some b.min) && jleUpper x b.max then
        jadd (some b.offset) (jmul (jadd (jsub x (some b.min)) (some 1)) (some b.rate))
      else
        calculateTaxAux x bs

/-- `calculateTax`. -/
def calculateTax (taxableIncome : JSNum) (year : TaxYear) : JSNum :=
  calculateTaxAux taxableIncome (taxBrackets year)

/-- `calculateMedicareLevy`. -/
def calculateMedicareLevy (taxableIncome : JSNum) (year : TaxYear) : JSNum :=
  let thresholds := medicareLevyThresholds year
  let rate := medicareLevy year
  if jleB taxableIncome (some thresholds.lower) then
    some 0
  else if jleB taxableIncome (some thresholds.upper) then
    let reduction :=
      jdiv (jsub (some thresholds.upper) taxableIncome)
        (jsub (some thresholds.upper) (some thresholds.lower))
    jmul (jmul taxableIncome (some rate)) (jsub (some 1) reduction)
  else
    jmul taxableIncome (some rate)

/-- The `for` loop of `calculateMedicareLevySurcharge`: first matching
bracket's flat rate times income; `0` if none matches. -/
def mlsAux (x : JSNum) : List RateBracket → JSNum
  | [] => some 0
  | t :: ts =>
      if jgeB x (some t.min) && jleUpper x t.max then
        jmul x (some t.rate)
      else
        mlsAux x ts

/-- `calculateMedicareLevySurcharge`. -/
def calculateMedicareLevySurcharge (taxableIncome : JSNum) (year : TaxYear)
    (hasInsurance : Bool) : JSNum :=
  if hasInsurance then
    some 0
  else
    mlsAux taxableIncome (mlsThresholds year)

/-- `getPayPeriodsPerYear` (with the `|| 26.09` fallback for an unknown
frequency string). -/
def getPayPeriodsPerYear : PayFrequency → ℚ
  | .weekly => 52.18
  | .fortnightly => 26.09
  | .monthly => 12
  | .quarterly => 4
  | .unknown => 26.09

/-- `getPayPeriodDays` (with the `|| 14` fallback for an unknown
frequency string). -/
def getPayPeriodDays : PayFrequency → ℚ
  | .weekly => 7
  | .fortnightly => 14
  | .monthly => 30.44
  | .quarterly => 91.33
  | .unknown => 14

/-- The component's input state (`InputState` in the source).  Numeric text
fields are `NumInput` strings; date fields are empty (`none`) or a valid
date, as guaranteed by `<input type="date">`. -/
structure InputState where
  payFrequency : PayFrequency
  payDate : Option CivilDate
  periodEndDate : Option CivilDate
  annualSalary : NumInput
  employmentStartDate : Option CivilDate
  taxYear : TaxYear
  fullTimeHours : NumInput
  fte : NumInput
  hasPrivateHealthInsurance : Bool
deriving DecidableEq

/-- `const annualSalary = parseFloat(inputs.annualSalary)` (may be `NaN`). -/
def annualSalary (i : InputState) : JSNum := parseFloat i.annualSalary

/-- `const fullTimeHours = parseFloat(inputs.fullTimeHours) || 38`. -/
def fullTimeHours (i : InputState) : ℚ := orDefault (parseFloat i.fullTimeHours) 38

/-- `const fte = parseFloat(inputs.fte) || 1.0`. -/
def fte (i : InputState) : ℚ := orDefault (parseFloat i.fte) 1

/-- `const periodsPerYear = getPayPeriodsPerYear(inputs.payFrequency)`. -/
def periodsPerYear (i : InputState) : ℚ := getPayPeriodsPerYear i.payFrequency

/-- `const payPeriodDays = getPayPeriodDays(inputs.payFrequency)`. -/
def payPeriodDays (i : InputState) : ℚ := getPayPeriodDays i.payFrequency

/-- `const effectiveAnnualSalary = annualSalary * fte`. -/
def effectiveAnnualSalary (i : InputState) : JSNum :=
  jmul (annualSalary i) (some (fte i))

/-- `const grossPay = effectiveAnnualSalary / periodsPerYear`. -/
def grossPay (i : InputState) : JSNum :=
  jdiv (effectiveAnnualSalary i) (some (periodsPerYear i))

/-- `const annualTax = calculateTax(effectiveAnnualSalary, inputs.taxYear)`. -/
def annualTax (i : InputState) : JSNum :=
  calculateTax (effectiveAnnualSalary i) i.taxYear

/-- `const taxPerPeriod = annualTax / periodsPerYear`. -/
def taxPerPeriod (i : InputState) : JSNum :=
  jdiv (annualTax i) (some (periodsPerYear i))

/-- `const annualMedicareLevy = calculateMedicareLevy(...)`. -/
def annualMedicareLevy (i : InputState) : JSNum :=
  calculateMedicareLevy (effectiveAnnualSalary i) i.taxYear

/-- `const annualMedicareLevySurcharge = calculateMedicareLevySurcharge(...)`. -/
def annualMedicareLevySurcharge (i : InputState) : JSNum :=
  calculateMedicareLevySurcharge (effectiveAnnualSalary i) i.taxYear
    i.hasPrivateHealthInsurance

/-- `const annualTotalMedicareCharges = annualMedicareLevy + annualMedicareLevySurcharge`. -/
def annualTotalMedicareCharges (i : InputState) : JSNum :=
  jadd (annualMedicareLevy i) (annualMedicareLevySurcharge i)

/-- `const medicareLevyPerPeriod = annualMedicareLevy / periodsPerYear`. -/
def medicareLevyPerPeriod (i : InputState) : JSNum :=
  jdiv (annualMedicareLevy i) (some (periodsPerYear i))

/-- `const medicareLevySurchargePerPeriod = annualMedicareLevySurcharge / periodsPerYear`. -/
def medicareLevySurchargePerPeriod (i : InputState) : JSNum :=
  jdiv (annualMedicareLevySurcharge i) (some (periodsPerYear i))

/-- `const totalMedicareChargesPerPeriod = annualTotalMedicareCharges / periodsPerYear`. -/
def totalMedicareChargesPerPeriod (i : InputState) : JSNum :=
  jdiv (annualTotalMedicareCharges i) (some (periodsPerYear i))

/-- `const netPay = grossPay - taxPerPeriod - totalMedicareChargesPerPeriod`. -/
def netPay (i : InputState) : JSNum :=
  jsub (jsub (grossPay i) (taxPerPeriod i)) (totalMedicareChargesPerPeriod i)

/-- `const superannuation = grossPay * superRate` with
`superRate = superRates[inputs.taxYear]`. -/
def superannuation (i : InputState) : JSNum :=
  jmul (grossPay i) (some (superRates i.taxYear))

/-- `const hoursPerPeriod = (fullTimeHours * fte * payPeriodDays) / 7`;
never `NaN` since its inputs are defaulted numbers and fixed lookups. -/
def hoursPerPeriod (i : InputState) : ℚ :=
  fullTimeHours i * fte i * payPeriodDays i / 7

/-- The annual-leave-accrual chain (lines computing
`annualLeaveAccrualHours`); never `NaN`. -/
def annualLeaveAccrualHours (i : InputState) : ℚ :=
  let annualLeaveDaysPerYear := 20 * fte i
  let workingDaysPerYear : ℚ := 260.87
  let annualLeaveAccrualRate := annualLeaveDaysPerYear / workingDaysPerYear
  let workingDaysThisPeriod := payPeriodDays i * 5 / 7
  let annualLeaveAccrualDays := workingDaysThisPeriod * annualLeaveAccrualRate
  let hoursPerDay := fullTimeHours i / 5
  annualLeaveAccrualDays * hoursPerDay

/-- `const financialYearStart = new Date(payDate.getFullYear() -
(payDate.getMonth() < 6 ? 1 : 0), 6, 1)`: July 1 of the financial year of
the pay date (JS month index 6 is July). -/
def financialYearStart (payDate : CivilDate) : CivilDate :=
  ⟨payDate.year - (if jsMonth payDate < 6 then 1 else 0), 7, 1⟩

/-- `const ytdStartDate = employmentStart > financialYearStart ?
employmentStart : financialYearStart` (JS compares dates by epoch time). -/
def ytdStartDate (payDate employmentStart : CivilDate) : CivilDate :=
  if jsTime (financialYearStart payDate) < jsTime employmentStart then
    employmentStart
  else
    financialYearStart payDate

/-- `const daysDiff = Math.floor((payDate.getTime() - ytdStartDate.getTime())
/ (1000 * 60 * 60 * 24))`. -/
def daysDiff (payDate employmentStart : CivilDate) : ℤ :=
  ⌊(jsTime payDate - jsTime (ytdStartDate payDate employmentStart)) / (1000 * 60 * 60 * 24)⌋

/-- `const ytdProportion = daysDiff / yearDays` with `yearDays = 365.25`. -/
def ytdProportion (payDate employmentStart : CivilDate) : ℚ :=
  (daysDiff payDate employmentStart : ℚ) / 365.25

/-- `const ytdMaxGross = effectiveAnnualSalary * ytdProportion`. -/
def ytdMaxGross (i : InputState) (pd ed : CivilDate) : JSNum :=
  jmul (effectiveAnnualSalary i) (some (ytdProportion pd ed))

/-- `const ytdMaxTax = annualTax * ytdProportion`. -/
def ytdMaxTax (i : InputState) (pd ed : CivilDate) : JSNum :=
  jmul (annualTax i) (some (ytdProportion pd ed))

/-- `const ytdMaxMedicareLevy = annualMedicareLevy * ytdProportion`. -/
def ytdMaxMedicareLevy (i : InputState) (pd ed : CivilDate) : JSNum :=
  jmul (annualMedicareLevy i) (some (ytdProportion pd ed))

/-- `const ytdMaxMedicareLevySurcharge = annualMedicareLevySurcharge * ytdProportion`. -/
def ytdMaxMedicareLevySurcharge (i : InputState) (pd ed : CivilDate) : JSNum :=
  jmul (annualMedicareLevySurcharge i) (some (ytdProportion pd ed))

/-- `const ytdMaxTotalMedicareCharges = annualTotalMedicareCharges * ytdProportion`. -/
def ytdMaxTotalMedicareCharges (i : InputState) (pd ed : CivilDate) : JSNum :=
  jmul (annualTotalMedicareCharges i) (some (ytdProportion pd ed))

/-- `const ytdMaxNet = ytdMaxGross - ytdMaxTax - ytdMaxTotalMedicareCharges`. -/
def ytdMaxNet (i : InputState) (pd ed : CivilDate) : JSNum :=
  jsub (jsub (ytdMaxGross i pd ed) (ytdMaxTax i pd ed)) (ytdMaxTotalMedicareCharges i pd ed)

/-- `const ytdMaxSuper = ytdMaxGross * superRate`. -/
def ytdMaxSuper (i : InputState) (pd ed : CivilDate) : JSNum :=
  jmul (ytdMaxGross i pd ed) (some (superRates i.taxYear))

/-- `const periodsToDate = Math.floor(daysDiff / payPeriodDays) + 1`. -/
def periodsToDate (i : InputState) (pd ed : CivilDate) : ℤ :=
  ⌊(daysDiff pd ed : ℚ) / payPeriodDays i⌋ + 1

/-- `const ytdGross = Math.min(grossPay * periodsToDate, ytdMaxGross)`. -/
def ytdGross (i : InputState) (pd ed : CivilDate) : JSNum :=
  jmin (jmul (grossPay i) (some ((periodsToDate i pd ed : ℤ) : ℚ))) (ytdMaxGross i pd ed)

/-- `const ytdTax = Math.min(taxPerPeriod * periodsToDate, ytdMaxTax)`. -/
def ytdTax (i : InputState) (pd ed : CivilDate) : JSNum :=
  jmin (jmul (taxPerPeriod i) (some ((periodsToDate i pd ed : ℤ) : ℚ))) (ytdMaxTax i pd ed)

/-- `const ytdMedicareLevy = Math.min(medicareLevyPerPeriod * periodsToDate, ytdMaxMedicareLevy)`. -/
def ytdMedicareLevy (i : InputState) (pd ed : CivilDate) : JSNum :=
  jmin (jmul (medicareLevyPerPeriod i) (some ((periodsToDate i pd ed : ℤ) : ℚ)))
    (ytdMaxMedicareLevy i pd ed)

/-- `const ytdMedicareLevySurcharge = Math.min(medicareLevySurchargePerPeriod * periodsToDate, ytdMaxMedicareLevySurcharge)`. -/
def ytdMedicareLevySurcharge (i : InputState) (pd ed : CivilDate) : JSNum :=
  jmin (jmul (medicareLevySurchargePerPeriod i) (some ((periodsToDate i pd ed : ℤ) : ℚ)))
    (ytdMaxMedicareLevySurcharge i pd ed)

/-- `const ytdTotalMedicareCharges = Math.min(totalMedicareChargesPerPeriod * periodsToDate, ytdMaxTotalMedicareCharges)`. -/
def ytdTotalMedicareCharges (i : InputState) (pd ed : CivilDate) : JSNum :=
  jmin (jmul (totalMedicareChargesPerPeriod i) (some ((periodsToDate i pd ed : ℤ) : ℚ)))
    (ytdMaxTotalMedicareCharges i pd ed)

/-- `const ytdNet = Math.min(netPay * periodsToDate, ytdMaxNet)`. -/
def ytdNet (i : InputState) (pd ed : CivilDate) : JSNum :=
  jmin (jmul (netPay i) (some ((periodsToDate i pd ed : ℤ) : ℚ))) (ytdMaxNet i pd ed)

/-- `const ytdSuper = Math.min(superannuation * periodsToDate, ytdMaxSuper)`. -/
def ytdSuper (i : InputState) (pd ed : CivilDate) : JSNum :=
  jmin (jmul (superannuation i) (some ((periodsToDate i pd ed : ℤ) : ℚ))) (ytdMaxSuper i pd ed)

/-- `const hourlyRate = effectiveAnnualSalary / (52.18 * fullTimeHours * fte)`. -/
def hourlyRate (i : InputState) : JSNum :=
  jdiv (effectiveAnnualSalary i) (some (52.18 * fullTimeHours i * fte i))

/-- The `ytd` sub-record of `CalculationResults`. -/
structure YtdTotals where
  gross : JSNum
  tax : JSNum
  medicareLevy : JSNum
  medicareLevySurcharge : JSNum
  totalMedicareCharges : JSNum
  net : JSNum
  super : JSNum
deriving DecidableEq

/-- `CalculationResults`.  Fields that can carry `NaN` (they depend on the
unguarded `parseFloat(inputs.annualSalary)`) are `JSNum`; fields computed
only from defaulted numbers and fixed lookups are plain `ℚ`;
`periodsToDate` is an integer (`Math.floor(...) + 1`). -/
structure CalculationResults where
  grossPay : JSNum
  taxableIncome : JSNum
  tax : JSNum
  medicareLevy : JSNum
  medicareLevySurcharge : JSNum
  totalMedicareCharges : JSNum
  netIncome : JSNum
  superannuation : JSNum
  annualLeaveAccrual : ℚ
  hoursWorked : ℚ
  hourlyRate : JSNum
  ytd : YtdTotals
  periodsPerYear : ℚ
  payPeriodDays : ℚ
  periodsToDate : ℤ
  effectiveAnnualSalary : JSNum
  fte : ℚ
deriving DecidableEq

/-- The result record passed to `setResults`, for a pay date `pd` and an
employment start date `ed`. -/
def mkResults (i : InputState) (pd ed : CivilDate) : CalculationResults where
  grossPay := grossPay i
  taxableIncome := grossPay i
  tax := taxPerPeriod i
  medicareLevy := medicareLevyPerPeriod i
  medicareLevySurcharge := medicareLevySurchargePerPeriod i
  totalMedicareCharges := totalMedicareChargesPerPeriod i
  netIncome := netPay i
  superannuation := superannuation i
  annualLeaveAccrual := annualLeaveAccrualHours i
  hoursWorked := hoursPerPeriod i
  hourlyRate := hourlyRate i
  ytd :=
    { gross := ytdGross i pd ed
      tax := ytdTax i pd ed
      medicareLevy := ytdMedicareLevy i pd ed
      medicareLevySurcharge := ytdMedicareLevySurcharge i pd ed
      totalMedicareCharges := ytdTotalMedicareCharges i pd ed
      net := ytdNet i pd ed
      super := ytdSuper i pd ed }
  periodsPerYear := periodsPerYear i
  payPeriodDays := payPeriodDays i
  periodsToDate := periodsToDate i pd ed
  effectiveAnnualSalary := effectiveAnnualSalary i
  fte := fte i

/-- `calculateResults`: the guard
`if (!inputs.annualSalary || !inputs.payDate || !inputs.periodEndDate ||
!inputs.employmentStartDate) return;` followed by the computation; `none`
models the early `return` (no result is produced). -/
def calculateResults (i : InputState) : Option CalculationResults :=
  match truthy i.annualSalary, i.payDate, i.periodEndDate, i.employmentStartDate with
  | true, some pd, some _, some ed => some (mkResults i pd ed)
  | _, _, _, _ => none

/-- A fixed complete valid input used by concrete instantiations:
salary 90000, fortnightly, 2025-26, private insurance, full time, pay date
2025-10-15, employment start 2025-07-01. -/
def exInput : InputState where
  payFrequency := .fortnightly
  payDate := some ⟨2025, 10, 15⟩
  periodEndDate := some ⟨2025, 10, 12⟩
  annualSalary := .lit (some 90000)
  employmentStartDate := some ⟨2025, 7, 1⟩
  taxYear := .y2025_26
  fullTimeHours := .lit (some 38)
  fte := .lit (some 1)
  hasPrivateHealthInsurance := true

/-! ### Supporting lemmas -/

theorem getPayPeriodsPerYear_ne_zero (f : PayFrequency) : getPayPeriodsPerYear f ≠ 0 := by
  cases f <;> norm_num [getPayPeriodsPerYear]

theorem jdiv_some {a b : ℚ} (hb : b ≠ 0) : jdiv (some a) (some b) = some (a / b) := by
  simp [jdiv, hb]

theorem calculateTaxAux_isSome (x : ℚ) (l : List TaxBracket) :
    ∃ v, calculateTaxAux (some x) l = some v := by
  induction l with
  | nil => exact ⟨0, rfl⟩
  | cons b bs ih =>
      by_cases hb : (jgeB (some x) (some b.min) && jleUpper (some x) b.max) = true
      · exact ⟨b.offset + (x - b.min + 1) * b.rate, by simp [calculateTaxAux, hb, jadd, jsub, jmul]⟩
      · obtain ⟨v, hv⟩ := ih
        exact ⟨v, by simp only [calculateTaxAux, hb]; simpa using hv⟩

theorem calculateMedicareLevy_some_eq (y : TaxYear) (x : ℚ) :
    calculateMedicareLevy (some x) y =
      some (if x ≤ 27222 then 0
        else if x ≤ 34027 then x * 0.02 * (1 - (34027 - x) / (34027 - 27222))
        else x * 0.02) := by
  cases y <;>
    simp only [calculateMedicareLevy, medicareLevyThresholds, medicareLevy, jleB, jsub, jmul,
      jdiv, decide_eq_true_eq] <;>
    split_ifs with h1 h2 <;>
    norm_num at *

theorem mlsAux_isSome (x : ℚ) (l : List RateBracket) :
    ∃ v, mlsAux (some x) l = some v := by
  induction l with
  | nil => exact ⟨0, rfl⟩
  | cons b bs ih =>
      by_cases hb : (jgeB (some x) (some b.min) && jleUpper (some x) b.max) = true
      · exact ⟨x * b.rate, by simp [mlsAux, hb, jmul]⟩
      · obtain ⟨v, hv⟩ := ih
        exact ⟨v, by simp only [mlsAux, hb]; simpa using hv⟩

theorem calculateMedicareLevySurcharge_isSome (x : ℚ) (y : TaxYear) (ins : Bool) :
    ∃ v, calculateMedicareLevySurcharge (some x) y ins = some v := by
  cases ins
  · simpa [calculateMedicareLevySurcharge] using mlsAux_isSome x (mlsThresholds y)
  · exact ⟨0, rfl⟩

theorem calculateResults_some {i : InputState} {r : CalculationResults}
    (h : calculateResults i = some r) :
    ∃ pd pe ed, i.payDate = some pd ∧ i.periodEndDate = some pe ∧
      i.employmentStartDate = some ed ∧ truthy i.annualSalary = true ∧
      r = mkResults i pd ed := by
  unfold calculateResults at h
  cases hA : truthy i.annualSalary <;> cases hP : i.payDate <;>
    cases hE : i.periodEndDate <;> cases hS : i.employmentStartDate <;>
    rw [hA, hP, hE, hS] at h <;>
    simp only [Option.some.injEq, reduceCtorEq] at h
  exact ⟨_, _, _, rfl, rfl, rfl, rfl, h.symm⟩

/-! ### Claim theorems -/

/-- C5: for a fixed tax year the annual Medicare levy is monotonically
non-decreasing in taxable income: for `x₁ ≤ x₂`,
`calculateMedicareLevy x₁ year <= calculateMedicareLevy x₂ year` (JS `<=`),
across the lower threshold, the tapered band and the full-rate region. -/
theorem c5_levy_monotone (y : TaxYear) (x₁ x₂ : ℚ) (h : x₁ ≤ x₂) :
    jleB (calculateMedicareLevy (some x₁) y) (calculateMedicareLevy (some x₂) y) = true := by
  rw [calculateMedicareLevy_some_eq, calculateMedicareLevy_some_eq]
  have e : ∀ z : ℚ, z * 0.02 * (1 - (34027 - z) / (34027 - 27222)) =
      z * (z - 27222) * (2 / 680500) := by
    intro z; ring
  have band_nonneg : ∀ w : ℚ, 27222 < w → (0:ℚ) ≤ w * (w - 27222) * (2 / 680500) := by
    intro w h1
    have h2 : (0:ℚ) ≤ w * (w - 27222) := mul_nonneg (by linarith) (by linarith)
    nlinarith [h2]
  have band_mono : ∀ z w : ℚ, 27222 < z → z ≤ w → w ≤ 34027 →
      z * (z - 27222) * (2 / 680500) ≤ w * (w - 27222) * (2 / 680500) := by
    intro z w h1 h2 h3
    have hz : (0:ℚ) ≤ w - z := by linarith
    have hs : (0:ℚ) ≤ z + w - 27222 := by linarith
    have key : z * (z - 27222) ≤ w * (w - 27222) := by nlinarith [mul_nonneg hz hs]
    exact mul_le_mul_of_nonneg_right key (by norm_num)
  have band_le_full : ∀ z w : ℚ, 27222 < z → z ≤ 34027 → z ≤ w →
      z * (z - 27222) * (2 / 680500) ≤ w * 0.02 := by
    intro z w h1 h2 h3
    have k1 : z * (z - 27222) ≤ z * 6805 :=
      mul_le_mul_of_nonneg_left (by linarith) (by linarith)
    nlinarith [k1]
  simp only [jleB, decide_eq_true_eq]
  split_ifs
  all_goals try simp only [e]
  all_goals first
    | linarith
    | exact band_nonneg x₂ (by linarith)
    | exact band_mono x₁ x₂ (by linarith) h (by linarith)
    | exact band_le_full x₁ x₂ (by linarith) (by linarith) h

/-- Witness for C5 at the concrete incomes 30000 ≤ 40000 (2025-26). -/
theorem c5_levy_monotone_witness :
    (30000 : ℚ) ≤ 40000 ∧
      jleB (calculateMedicareLevy (some 30000) .y2025_26)
        (calculateMedicareLevy (some 40000) .y2025_26) = true :=
  ⟨by norm_num, c5_levy_monotone .y2025_26 30000 40000 (by norm_num)⟩

/-- C8: with private health insurance the Medicare levy surcharge is zero for
every income and tax year — both the annual figure
(`calculateMedicareLevySurcharge _ _ true = 0`) and the per-period
`medicareLevySurcharge` field of every produced result. -/
theorem c8_insurance_no_surcharge :
    (∀ (x : JSNum) (y : TaxYear), calculateMedicareLevySurcharge x y true = some 0) ∧
    (∀ (i : InputState) (r : CalculationResults), i.hasPrivateHealthInsurance = true →
      calculateResults i = some r → r.medicareLevySurcharge = some 0) := by
  constructor
  · intro x y; rfl
  · intro i r hIns h
    obtain ⟨pd, pe, ed, _, _, _, _, rfl⟩ := calculateResults_some h
    show medicareLevySurchargePerPeriod i = some 0
    unfold medicareLevySurchargePerPeriod annualMedicareLevySurcharge
    rw [hIns]
    rw [show calculateMedicareLevySurcharge (effectiveAnnualSalary i) i.taxYear true =
      some 0 from rfl]
    rw [show periodsPerYear i = getPayPeriodsPerYear i.payFrequency from rfl]
    rw [jdiv_some (getPayPeriodsPerYear_ne_zero i.payFrequency)]
    simp

/-- Witness for C8 on the concrete insured input. -/
theorem c8_insurance_no_surcharge_witness :
    (mkResults exInput ⟨2025, 10, 15⟩ ⟨2025, 7, 1⟩).medicareLevySurcharge = some 0 :=
  c8_insurance_no_surcharge.2 exInput _ rfl rfl

/-- C9: every produced result satisfies
`netIncome = grossPay - tax - totalMedicareCharges` (`totalMedicareCharges`
being levy plus surcharge per period). -/
theorem c9_net_income_eq (i : InputState) (r : CalculationResults) (g t m : ℚ)
    (h : calculateResults i = some r) (hg : r.grossPay = some g) (ht : r.tax = some t)
    (hm : r.totalMedicareCharges = some m) : r.netIncome = some (g - t - m) := by
  obtain ⟨pd, pe, ed, _, _, _, _, rfl⟩ := calculateResults_some h
  simp only [mkResults] at hg ht hm ⊢
  unfold netPay
  rw [hg, ht, hm]
  simp [jsub]

/-- Witness for C9: the concrete input's result has
net = gross − tax − Medicare charges = (9000000 − 1778800 − 180000)/2609. -/
theorem c9_net_income_eq_witness :
    (mkResults exInput ⟨2025, 10, 15⟩ ⟨2025, 7, 1⟩).netIncome =
      some ((9000000 : ℚ)/2609 - 1778800/2609 - 180000/2609) :=
  c9_net_income_eq exInput _ (9000000/2609) (1778800/2609) (180000/2609)
    (by with_unfolding_all rfl) (by with_unfolding_all rfl) (by with_unfolding_all rfl)
    (by with_unfolding_all rfl)

/-- `exInput` with the `fte` field reading "0". -/
def exC1 : InputState := { exInput with fte := .lit (some 0) }

/-- C1, counterexample: with all required fields present and the `fte` input
parsing to `0`, the computed effective annual salary is the full salary
90000 (not 0) and the hours worked are the full-time 76 (not 0), because
`parseFloat(inputs.fte) || 1.0` replaces a parsed `0` by the default `1.0`. -/
theorem c1_counterexample :
    parseFloat exC1.fte = some 0 ∧
      (calculateResults exC1).map CalculationResults.effectiveAnnualSalary =
        some (some 90000) ∧
      (calculateResults exC1).map CalculationResults.hoursWorked = some 76 ∧
      (90000 : ℚ) ≠ 0 ∧ (76 : ℚ) ≠ 0 := by
  refine ⟨rfl, by with_unfolding_all rfl, by with_unfolding_all rfl, by norm_num, by norm_num⟩

/-- C1 (amended): an `fte` input parsing to `0` falls back to the default
`1.0`, so the result's `fte` is `1`, the effective annual salary equals the
parsed annual salary, and the hours worked equal the full-time hours for
the period; no error is raised (a result is still produced). -/
theorem c1_fte_zero_defaults (i : InputState) (r : CalculationResults) (s : ℚ)
    (h : calculateResults i = some r) (hf : parseFloat i.fte = some 0)
    (hs : parseFloat i.annualSalary = some s) :
    r.fte = 1 ∧ r.effectiveAnnualSalary = some s ∧
      r.hoursWorked = fullTimeHours i * 1 * payPeriodDays i / 7 := by
  obtain ⟨pd, pe, ed, _, _, _, _, rfl⟩ := calculateResults_some h
  have hfte : fte i = 1 := by simp [fte, hf, orDefault]
  simp only [mkResults]
  refine ⟨hfte, ?_, ?_⟩
  · simp [effectiveAnnualSalary, annualSalary, hs, hfte, jmul]
  · rw [hoursPerPeriod, hfte]

/-- Witness for C1's amended theorem on the concrete fte-0 input. -/
theorem c1_fte_zero_defaults_witness :
    (mkResults exC1 ⟨2025, 10, 15⟩ ⟨2025, 7, 1⟩).fte = 1 ∧
      (mkResults exC1 ⟨2025, 10, 15⟩ ⟨2025, 7, 1⟩).effectiveAnnualSalary = some 90000 ∧
      (mkResults exC1 ⟨2025, 10, 15⟩ ⟨2025, 7, 1⟩).hoursWorked =
        fullTimeHours exC1 * 1 * payPeriodDays exC1 / 7 :=
  c1_fte_zero_defaults exC1 _ 90000 rfl rfl rfl

/-- `exInput` with a non-empty but unparseable `annualSalary` string. -/
def exC2 : InputState := { exInput with annualSalary := .lit none }

/-- C2, counterexample: a non-empty `annualSalary` on which `parseFloat`
yields `NaN` passes the guard (which tests only string truthiness), so a
result is still produced — contradicting "unparseable required field ⇒ no
result". -/
theorem c2_counterexample :
    truthy exC2.annualSalary = true ∧ parseFloat exC2.annualSalary = none ∧
      (calculateResults exC2).isSome = true :=
  ⟨rfl, rfl, rfl⟩

/-- C2 (amended): the engine produces no result exactly when a required
field is missing (empty); the guard checks only presence, so a non-empty
but unparseable `annualSalary` still yields a (NaN-carrying) result.  No
exception is raised in either case (the function is total). -/
theorem c2_missing_input_iff (i : InputState) :
    calculateResults i = none ↔
      (truthy i.annualSalary = false ∨ i.payDate = none ∨
        i.periodEndDate = none ∨ i.employmentStartDate = none) := by
  unfold calculateResults
  cases hA : truthy i.annualSalary <;> cases hP : i.payDate <;>
    cases hE : i.periodEndDate <;> cases hS : i.employmentStartDate <;> simp

/-- `exInput` with all three numeric strings non-empty but unparseable. -/
def exC3 : InputState :=
  { exInput with annualSalary := .lit none, fullTimeHours := .lit none, fte := .lit none }

/-- C3, counterexample: a malformed (non-empty, unparseable) `annualSalary`
is neither treated as zero nor defaulted — the parse failure (`NaN`,
modelled `none`) propagates into the result's `effectiveAnnualSalary` and
`netIncome`. -/
theorem c3_counterexample :
    parseFloat exC3.annualSalary = none ∧
      (calculateResults exC3).map CalculationResults.effectiveAnnualSalary = some none ∧
      (calculateResults exC3).map CalculationResults.netIncome = some none := by
  refine ⟨rfl, by with_unfolding_all rfl, by with_unfolding_all rfl⟩

/-- C3 (amended): a malformed `fullTimeHours` falls back to 38 and a
malformed `fte` falls back to 1.0; but a malformed (non-empty)
`annualSalary` has no default and propagates `NaN` into the result. -/
theorem c3_malformed_defaults :
    (∀ i : InputState, parseFloat i.fullTimeHours = none → fullTimeHours i = 38) ∧
    (∀ i : InputState, parseFloat i.fte = none → fte i = 1) ∧
    (∀ (i : InputState) (r : CalculationResults), calculateResults i = some r →
      parseFloat i.annualSalary = none → r.effectiveAnnualSalary = none) := by
  refine ⟨fun i h => by simp [fullTimeHours, h, orDefault],
    fun i h => by simp [fte, h, orDefault], ?_⟩
  intro i r h hs
  obtain ⟨pd, pe, ed, _, _, _, _, rfl⟩ := calculateResults_some h
  simp only [mkResults]
  simp [effectiveAnnualSalary, annualSalary, hs, jmul]

/-- Witness for C3's amended theorem on the concrete malformed input. -/
theorem c3_malformed_defaults_witness :
    fullTimeHours exC3 = 38 ∧ fte exC3 = 1 ∧
      (mkResults exC3 ⟨2025, 10, 15⟩ ⟨2025, 7, 1⟩).effectiveAnnualSalary = none :=
  ⟨c3_malformed_defaults.1 exC3 rfl, c3_malformed_defaults.2.1 exC3 rfl,
    c3_malformed_defaults.2.2 exC3 _ rfl rfl⟩

/-- C10: the reported hourly rate is independent of fte — for an accepted
(non-zero-parsing) fte `q` and full-time hours `w`, the hourly rate is both
`effectiveAnnualSalary / (52.18 * fullTimeHours * fte)` (the source
expression) and `annualSalary / (52.18 * fullTimeHours)`: the fte factor
cancels. -/
theorem c10_hourlyRate_fte_independent (i : InputState) (r : CalculationResults)
    (s q w : ℚ) (h : calculateResults i = some r)
    (hs : parseFloat i.annualSalary = some s) (hq : parseFloat i.fte = some q)
    (hq0 : q ≠ 0) (hw : parseFloat i.fullTimeHours = some w) (hw0 : w ≠ 0) :
    r.hourlyRate = some (s * q / (52.18 * w * q)) ∧
      r.hourlyRate = some (s / (52.18 * w)) := by
  obtain ⟨pd, pe, ed, _, _, _, _, rfl⟩ := calculateResults_some h
  have hfte : fte i = q := by simp [fte, hq, orDefault, hq0]
  have hfth : fullTimeHours i = w := by simp [fullTimeHours, hw, orDefault, hw0]
  have hden : (52.18 : ℚ) * w * q ≠ 0 :=
    mul_ne_zero (mul_ne_zero (by norm_num) hw0) hq0
  have h1 : (mkResults i pd ed).hourlyRate = some (s * q / (52.18 * w * q)) := by
    simp only [mkResults, hourlyRate]
    rw [show effectiveAnnualSalary i = some (s * q) from
      by simp [effectiveAnnualSalary, annualSalary, hs, hfte, jmul]]
    rw [hfte, hfth, jdiv_some hden]
  refine ⟨h1, ?_⟩
  rw [h1]
  have h2 : s * q / (52.18 * w * q) = s / (52.18 * w) := by
    field_simp
    ring
  rw [h2]

/-- `exInput` at half time (fte 0.5). -/
def exC10 : InputState := { exInput with fte := .lit (some (1/2)) }

/-- Witness for C10 on a half-time input: its hourly rate equals the
full-time hourly rate `90000 / (52.18 * 38)`. -/
theorem c10_hourlyRate_fte_independent_witness :
    (mkResults exC10 ⟨2025, 10, 15⟩ ⟨2025, 7, 1⟩).hourlyRate =
        some (90000 * (1/2) / (52.18 * 38 * (1/2))) ∧
      (mkResults exC10 ⟨2025, 10, 15⟩ ⟨2025, 7, 1⟩).hourlyRate =
        some (90000 / (52.18 * 38)) :=
  c10_hourlyRate_fte_independent exC10 _ 90000 (1/2) 38 rfl rfl rfl (by norm_num) rfl
    (by norm_num)

/-- C7, counterexample: for the 90000/fortnightly/2025-26 scenario the
per-period tax is exactly 17788/26.09 ≈ 681.79, which differs from the
claimed "≈ 681.72" by more than a cent (the difference is ≥ 1/100, indeed
≥ 7/100). -/
theorem c7_counterexample :
    (calculateResults exInput).map CalculationResults.tax =
        some (some ((17788 : ℚ) / 26.09)) ∧
      (1/100 : ℚ) ≤ (17788 : ℚ) / 26.09 - 681.72 := by
  exact ⟨by with_unfolding_all rfl, by norm_num⟩

/-- C7 (amended): for annualSalary 90000, fte 1.0, fullTimeHours 38,
fortnightly, 2025-26, insured: the 45001–135000 bracket (rate 0.30, offset
4288) applies, annual tax = 4288 + (90000 − 45001 + 1) × 0.30 = 17788,
gross per period = 90000/26.09 (≈ 3449.59, truncated), tax per period =
17788/26.09 ≈ 681.79 (not 681.72), and the Medicare levy surcharge is 0. -/
theorem c7_scenario :
    calculateTax (some 90000) TaxYear.y2025_26 =
        some (4288 + (90000 - 45001 + 1) * 0.30) ∧
      calculateTax (some 90000) TaxYear.y2025_26 = some 17788 ∧
      (calculateResults exInput).map CalculationResults.grossPay =
        some (some ((90000 : ℚ) / 26.09)) ∧
      (calculateResults exInput).map CalculationResults.tax =
        some (some ((17788 : ℚ) / 26.09)) ∧
      (calculateResults exInput).map CalculationResults.medicareLevySurcharge =
        some (some 0) ∧
      ((3449.59 : ℚ) ≤ 90000 / 26.09 ∧ (90000 : ℚ) / 26.09 < 3449.60) ∧
      ((681.79 : ℚ) ≤ 17788 / 26.09 ∧ (17788 : ℚ) / 26.09 < 681.80) := by
  refine ⟨by with_unfolding_all rfl, by with_unfolding_all rfl, by with_unfolding_all rfl,
    by with_unfolding_all rfl, by with_unfolding_all rfl, by norm_num, by norm_num⟩

/-- The loop guard of `calculateTax`/`calculateMedicareLevySurcharge` at a
single bracket: `income >= bracket.min && income <= bracket.max`. -/
def inBracket (x : ℚ) (b : TaxBracket) : Bool :=
  jgeB (some x) (some b.min) && jleUpper (some x) b.max

/-- Integer contiguity of a bracket list: every bracket except the last has
a finite `max` and the next bracket starts at `max + 1`. -/
def contiguous : List TaxBracket → Bool
  | b1 :: b2 :: rest =>
      (match b1.max with
        | some m => decide (b2.min = m + 1)
        | none => false) && contiguous (b2 :: rest)
  | _ => true

/-- Bracket minima strictly ascending. -/
def minsAscending : List TaxBracket → Bool
  | b1 :: b2 :: rest => decide (b1.min < b2.min) && minsAscending (b2 :: rest)
  | _ => true

/-- The last bracket of the list is unbounded (`max = Infinity`). -/
def lastUnbounded : List TaxBracket → Bool
  | [] => false
  | [b] => b.max.isNone
  | _ :: rest => lastUnbounded rest

/-- C4, counterexample: the non-negative income 18200.5 lies in no bracket
of the 2025-26 table (the gap between `max = 18200` and `min = 18201`), so
"every non-negative income lies in exactly one bracket" fails — and
`calculateTax` falls through all brackets and returns 0 for it. -/
theorem c4_counterexample :
    (0 : ℚ) ≤ 18200.5 ∧
      (taxBrackets TaxYear.y2025_26).countP (fun b => inBracket (18200.5 : ℚ) b) = 0 ∧
      calculateTax (some (18200.5 : ℚ)) TaxYear.y2025_26 = some 0 := by
  refine ⟨by norm_num, by with_unfolding_all rfl, by with_unfolding_all rfl⟩

theorem bracketCount_2024_25 (n : ℕ) :
    (taxBrackets TaxYear.y2024_25).countP (fun b => inBracket (n : ℚ) b) = 1 := by
  have c0 : (0 : ℚ) ≤ (n : ℚ) := Nat.cast_nonneg n
  simp only [taxBrackets, List.countP_cons, List.countP_nil, inBracket, jgeB, jleUpper,
    Bool.and_eq_true, decide_eq_true_eq]
  by_cases h1 : n ≤ 18200
  · have r1 : ((n : ℚ) ≤ 18200) := by exact_mod_cast h1
    have r2 : ¬ ((18201 : ℚ) ≤ (n : ℚ)) := by exact_mod_cast (show ¬ (18201 ≤ n) by omega)
    have r3 : ¬ ((45001 : ℚ) ≤ (n : ℚ)) := by exact_mod_cast (show ¬ (45001 ≤ n) by omega)
    have r4 : ¬ ((120001 : ℚ) ≤ (n : ℚ)) := by exact_mod_cast (show ¬ (120001 ≤ n) by omega)
    have r5 : ¬ ((180001 : ℚ) ≤ (n : ℚ)) := by exact_mod_cast (show ¬ (180001 ≤ n) by omega)
    simp [c0, r1, r2, r3, r4, r5]
  by_cases h2 : n ≤ 45000
  · have r1 : ¬ ((n : ℚ) ≤ 18200) := by exact_mod_cast (show ¬ (n ≤ 18200) by omega)
    have r2 : ((18201 : ℚ) ≤ (n : ℚ)) := by exact_mod_cast (show 18201 ≤ n by omega)
    have r3 : ((n : ℚ) ≤ 45000) := by exact_mod_cast h2
    have r4 : ¬ ((45001 : ℚ) ≤ (n : ℚ)) := by exact_mod_cast (show ¬ (45001 ≤ n) by omega)
    have r5 : ¬ ((120001 : ℚ) ≤ (n : ℚ)) := by exact_mod_cast (show ¬ (120001 ≤ n) by omega)
    have r6 : ¬ ((180001 : ℚ) ≤ (n : ℚ)) := by exact_mod_cast (show ¬ (180001 ≤ n) by omega)
    simp [c0, r1, r2, r3, r4, r5, r6]
  by_cases h3 : n ≤ 120000
  · have r1 : ¬ ((n : ℚ) ≤ 18200) := by exact_mod_cast (show ¬ (n ≤ 18200) by omega)
    have r2 : ¬ ((n : ℚ) ≤ 45000) := by exact_mod_cast (show ¬ (n ≤ 45000) by omega)
    have r3 : ((45001 : ℚ) ≤ (n : ℚ)) := by exact_mod_cast (show 45001 ≤ n by omega)
    have r4 : ((n : ℚ) ≤ 120000) := by exact_mod_cast h3
    have r5 : ¬ ((120001 : ℚ) ≤ (n : ℚ)) := by exact_mod_cast (show ¬ (120001 ≤ n) by omega)
    have r6 : ¬ ((180001 : ℚ) ≤ (n : ℚ)) := by exact_mod_cast (show ¬ (180001 ≤ n) by omega)
    simp [c0, r1, r2, r3, r4, r5, r6]
  by_cases h4 : n ≤ 180000
  · have r1 : ¬ ((n : ℚ) ≤ 18200) := by exact_mod_cast (show ¬ (n ≤ 18200) by omega)
    have r2 : ¬ ((n : ℚ) ≤ 45000) := by exact_mod_cast (show ¬ (n ≤ 45000) by omega)
    have r3 : ¬ ((n : ℚ) ≤ 120000) := by exact_mod_cast (show ¬ (n ≤ 120000) by omega)
    have r4 : ((120001 : ℚ) ≤ (n : ℚ)) := by exact_mod_cast (show 120001 ≤ n by omega)
    have r5 : ((n : ℚ) ≤ 180000) := by exact_mod_cast h4
    have r6 : ¬ ((180001 : ℚ) ≤ (n : ℚ)) := by exact_mod_cast (show ¬ (180001 ≤ n) by omega)
    simp [c0, r1, r2, r3, r4, r5, r6]
  · have r1 : ¬ ((n : ℚ) ≤ 18200) := by exact_mod_cast (show ¬ (n ≤ 18200) by omega)
    have r2 : ¬ ((n : ℚ) ≤ 45000) := by exact_mod_cast (show ¬ (n ≤ 45000) by omega)
    have r3 : ¬ ((n : ℚ) ≤ 120000) := by exact_mod_cast (show ¬ (n ≤ 120000) by omega)
    have r4 : ¬ ((n : ℚ) ≤ 180000) := by exact_mod_cast (show ¬ (n ≤ 180000) by omega)
    have r5 : ((180001 : ℚ) ≤ (n : ℚ)) := by exact_mod_cast (show 180001 ≤ n by omega)
    simp [c0, r1, r2, r3, r4, r5]

theorem bracketCount_2025_26 (n : ℕ) :
    (taxBrackets TaxYear.y2025_26).countP (fun b => inBracket (n : ℚ) b) = 1 := by
  have c0 : (0 : ℚ) ≤ (n : ℚ) := Nat.cast_nonneg n
  simp only [taxBrackets, List.countP_cons, List.countP_nil, inBracket, jgeB, jleUpper,
    Bool.and_eq_true, decide_eq_true_eq]
  by_cases h1 : n ≤ 18200
  · have r1 : ((n : ℚ) ≤ 18200) := by exact_mod_cast h1
    have r2 : ¬ ((18201 : ℚ) ≤ (n : ℚ)) := by exact_mod_cast (show ¬ (18201 ≤ n) by omega)
    have r3 : ¬ ((45001 : ℚ) ≤ (n : ℚ)) := by exact_mod_cast (show ¬ (45001 ≤ n) by omega)
    have r4 : ¬ ((135001 : ℚ) ≤ (n : ℚ)) := by exact_mod_cast (show ¬ (135001 ≤ n) by omega)
    have r5 : ¬ ((190001 : ℚ) ≤ (n : ℚ)) := by exact_mod_cast (show ¬ (190001 ≤ n) by omega)
    simp [c0, r1, r2, r3, r4, r5]
  by_cases h2 : n ≤ 45000
  · have r1 : ¬ ((n : ℚ) ≤ 18200) := by exact_mod_cast (show ¬ (n ≤ 18200) by omega)
    have r2 : ((18201 : ℚ) ≤ (n : ℚ)) := by exact_mod_cast (show 18201 ≤ n by omega)
    have r3 : ((n : ℚ) ≤ 45000) := by exact_mod_cast h2
    have r4 : ¬ ((45001 : ℚ) ≤ (n : ℚ)) := by exact_mod_cast (show ¬ (45001 ≤ n) by omega)
    have r5 : ¬ ((135001 : ℚ) ≤ (n : ℚ)) := by exact_mod_cast (show ¬ (135001 ≤ n) by omega)
    have r6 : ¬ ((190001 : ℚ) ≤ (n : ℚ)) := by exact_mod_cast (show ¬ (190001 ≤ n) by omega)
    simp [c0, r1, r2, r3, r4, r5, r6]
  by_cases h3 : n ≤ 135000
  · have r1 : ¬ ((n : ℚ) ≤ 18200) := by exact_mod_cast (show ¬ (n ≤ 18200) by omega)
    have r2 : ¬ ((n : ℚ) ≤ 45000) := by exact_mod_cast (show ¬ (n ≤ 45000) by omega)
    have r3 : ((45001 : ℚ) ≤ (n : ℚ)) := by exact_mod_cast (show 45001 ≤ n by omega)
    have r4 : ((n : ℚ) ≤ 135000) := by exact_mod_cast h3
    have r5 : ¬ ((135001 : ℚ) ≤ (n : ℚ)) := by exact_mod_cast (show ¬ (135001 ≤ n) by omega)
    have r6 : ¬ ((190001 : ℚ) ≤ (n : ℚ)) := by exact_mod_cast (show ¬ (190001 ≤ n) by omega)
    simp [c0, r1, r2, r3, r4, r5, r6]
  by_cases h4 : n ≤ 190000
  · have r1 : ¬ ((n : ℚ) ≤ 18200) := by exact_mod_cast (show ¬ (n ≤ 18200) by omega)
    have r2 : ¬ ((n : ℚ) ≤ 45000) := by exact_mod_cast (show ¬ (n ≤ 45000) by omega)
    have r3 : ¬ ((n : ℚ) ≤ 135000) := by exact_mod_cast (show ¬ (n ≤ 135000) by omega)
    have r4 : ((135001 : ℚ) ≤ (n : ℚ)) := by exact_mod_cast (show 135001 ≤ n by omega)
    have r5 : ((n : ℚ) ≤ 190000) := by exact_mod_cast h4
    have r6 : ¬ ((190001 : ℚ) ≤ (n : ℚ)) := by exact_mod_cast (show ¬ (190001 ≤ n) by omega)
    simp [c0, r1, r2, r3, r4, r5, r6]
  · have r1 : ¬ ((n : ℚ) ≤ 18200) := by exact_mod_cast (show ¬ (n ≤ 18200) by omega)
    have r2 : ¬ ((n : ℚ) ≤ 45000) := by exact_mod_cast (show ¬ (n ≤ 45000) by omega)
    have r3 : ¬ ((n : ℚ) ≤ 135000) := by exact_mod_cast (show ¬ (n ≤ 135000) by omega)
    have r4 : ¬ ((n : ℚ) ≤ 190000) := by exact_mod_cast (show ¬ (n ≤ 190000) by omega)
    have r5 : ((190001 : ℚ) ≤ (n : ℚ)) := by exact_mod_cast (show 190001 ≤ n by omega)
    simp [c0, r1, r2, r3, r4, r5]

theorem taxFormula_2024_25 (x : ℚ) (b : TaxBracket) (hb : b ∈ taxBrackets TaxYear.y2024_25)
    (hin : inBracket x b = true) :
    calculateTax (some x) TaxYear.y2024_25 = some (b.offset + (x - b.min + 1) * b.rate) := by
  simp only [taxBrackets] at hb
  fin_cases hb
  · simp only [inBracket, jgeB, jleUpper, Bool.and_eq_true, decide_eq_true_eq] at hin
    obtain ⟨ha, hb1⟩ := hin
    simp [calculateTax, taxBrackets, calculateTaxAux, jgeB, jleUpper, jadd, jsub, jmul, ha, hb1]
  · simp only [inBracket, jgeB, jleUpper, Bool.and_eq_true, decide_eq_true_eq] at hin
    obtain ⟨ha, hb1⟩ := hin
    have n1 : ¬ (x ≤ (18200 : ℚ)) := by linarith
    have p0 : (0 : ℚ) ≤ x := by linarith
    simp [calculateTax, taxBrackets, calculateTaxAux, jgeB, jleUpper, jadd, jsub, jmul,
      ha, hb1, n1, p0]
  · simp only [inBracket, jgeB, jleUpper, Bool.and_eq_true, decide_eq_true_eq] at hin
    obtain ⟨ha, hb1⟩ := hin
    have n1 : ¬ (x ≤ (18200 : ℚ)) := by linarith
    have n2 : ¬ (x ≤ (45000 : ℚ)) := by linarith
    have p0 : (0 : ℚ) ≤ x := by linarith
    simp [calculateTax, taxBrackets, calculateTaxAux, jgeB, jleUpper, jadd, jsub, jmul,
      ha, hb1, n1, n2, p0]
  · simp only [inBracket, jgeB, jleUpper, Bool.and_eq_true, decide_eq_true_eq] at hin
    obtain ⟨ha, hb1⟩ := hin
    have n1 : ¬ (x ≤ (18200 : ℚ)) := by linarith
    have n2 : ¬ (x ≤ (45000 : ℚ)) := by linarith
    have n3 : ¬ (x ≤ (120000 : ℚ)) := by linarith
    have p0 : (0 : ℚ) ≤ x := by linarith
    simp [calculateTax, taxBrackets, calculateTaxAux, jgeB, jleUpper, jadd, jsub, jmul,
      ha, hb1, n1, n2, n3, p0]
  · simp only [inBracket, jgeB, jleUpper, Bool.and_eq_true, decide_eq_true_eq] at hin
    have ha : (180001 : ℚ) ≤ x := hin.1
    have n1 : ¬ (x ≤ (18200 : ℚ)) := by linarith
    have n2 : ¬ (x ≤ (45000 : ℚ)) := by linarith
    have n3 : ¬ (x ≤ (120000 : ℚ)) := by linarith
    have n4 : ¬ (x ≤ (180000 : ℚ)) := by linarith
    have p0 : (0 : ℚ) ≤ x := by linarith
    simp [calculateTax, taxBrackets, calculateTaxAux, jgeB, jleUpper, jadd, jsub, jmul,
      ha, n1, n2, n3, n4, p0]

theorem taxFormula_2025_26 (x : ℚ) (b : TaxBracket) (hb : b ∈ taxBrackets TaxYear.y2025_26)
    (hin : inBracket x b = true) :
    calculateTax (some x) TaxYear.y2025_26 = some (b.offset + (x - b.min + 1) * b.rate) := by
  simp only [taxBrackets] at hb
  fin_cases hb
  · simp only [inBracket, jgeB, jleUpper, Bool.and_eq_true, decide_eq_true_eq] at hin
    obtain ⟨ha, hb1⟩ := hin
    simp [calculateTax, taxBrackets, calculateTaxAux, jgeB, jleUpper, jadd, jsub, jmul, ha, hb1]
  · simp only [inBracket, jgeB, jleUpper, Bool.and_eq_true, decide_eq_true_eq] at hin
    obtain ⟨ha, hb1⟩ := hin
    have n1 : ¬ (x ≤ (18200 : ℚ)) := by linarith
    have p0 : (0 : ℚ) ≤ x := by linarith
    simp [calculateTax, taxBrackets, calculateTaxAux, jgeB, jleUpper, jadd, jsub, jmul,
      ha, hb1, n1, p0]
  · simp only [inBracket, jgeB, jleUpper, Bool.and_eq_true, decide_eq_true_eq] at hin
    obtain ⟨ha, hb1⟩ := hin
    have n1 : ¬ (x ≤ (18200 : ℚ)) := by linarith
    have n2 : ¬ (x ≤ (45000 : ℚ)) := by linarith
    have p0 : (0 : ℚ) ≤ x := by linarith
    simp [calculateTax, taxBrackets, calculateTaxAux, jgeB, jleUpper, jadd, jsub, jmul,
      ha, hb1, n1, n2, p0]
  · simp only [inBracket, jgeB, jleUpper, Bool.and_eq_true, decide_eq_true_eq] at hin
    obtain ⟨ha, hb1⟩ := hin
    have n1 : ¬ (x ≤ (18200 : ℚ)) := by linarith
    have n2 : ¬ (x ≤ (45000 : ℚ)) := by linarith
    have n3 : ¬ (x ≤ (135000 : ℚ)) := by linarith
    have p0 : (0 : ℚ) ≤ x := by linarith
    simp [calculateTax, taxBrackets, calculateTaxAux, jgeB, jleUpper, jadd, jsub, jmul,
      ha, hb1, n1, n2, n3, p0]
  · simp only [inBracket, jgeB, jleUpper, Bool.and_eq_true, decide_eq_true_eq] at hin
    have ha : (190001 : ℚ) ≤ x := hin.1
    have n1 : ¬ (x ≤ (18200 : ℚ)) := by linarith
    have n2 : ¬ (x ≤ (45000 : ℚ)) := by linarith
    have n3 : ¬ (x ≤ (135000 : ℚ)) := by linarith
    have n4 : ¬ (x ≤ (190000 : ℚ)) := by linarith
    have p0 : (0 : ℚ) ≤ x := by linarith
    simp [calculateTax, taxBrackets, calculateTaxAux, jgeB, jleUpper, jadd, jsub, jmul,
      ha, n1, n2, n3, n4, p0]

/-- C4 (amended): `calculateTax` evaluates
`offset + (income − min + 1) × rate` of the bracket whose `[min, max]`
contains the income; each year's table is integer-contiguous (next `min` =
previous `max` + 1) — hence every non-negative **integer** income lies in
exactly one bracket (a non-integer income between `max` and `max + 1` lies
in none, see the counterexample) — sorted ascending with the last bracket
unbounded. -/
theorem c4_bracket_table (y : TaxYear) :
    (∀ n : ℕ, (taxBrackets y).countP (fun b => inBracket (n : ℚ) b) = 1) ∧
    contiguous (taxBrackets y) = true ∧
    minsAscending (taxBrackets y) = true ∧
    lastUnbounded (taxBrackets y) = true ∧
    (∀ (x : ℚ) (b : TaxBracket), b ∈ taxBrackets y → inBracket x b = true →
      calculateTax (some x) y = some (b.offset + (x - b.min + 1) * b.rate)) := by
  cases y
  · exact ⟨bracketCount_2024_25, by norm_num [contiguous, taxBrackets],
      by norm_num [minsAscending, taxBrackets], by norm_num [lastUnbounded, taxBrackets],
      taxFormula_2024_25⟩
  · exact ⟨bracketCount_2025_26, by norm_num [contiguous, taxBrackets],
      by norm_num [minsAscending, taxBrackets], by norm_num [lastUnbounded, taxBrackets],
      taxFormula_2025_26⟩

/-- Witness for C4 at income 90000 in 2025-26: it is counted by exactly one
bracket, and `calculateTax` applies the third bracket's formula to it. -/
theorem c4_bracket_table_witness :
    (taxBrackets TaxYear.y2025_26).countP (fun b => inBracket ((90000 : ℕ) : ℚ) b) = 1 ∧
      calculateTax (some 90000) TaxYear.y2025_26 =
        some ((⟨45001, some 135000, 0.30, 4288⟩ : TaxBracket).offset +
          ((90000 : ℚ) - (⟨45001, some 135000, 0.30, 4288⟩ : TaxBracket).min + 1) *
            (⟨45001, some 135000, 0.30, 4288⟩ : TaxBracket).rate) :=
  ⟨(c4_bracket_table TaxYear.y2025_26).1 90000,
    (c4_bracket_table TaxYear.y2025_26).2.2.2.2 90000 ⟨45001, some 135000, 0.30, 4288⟩
      (by simp [taxBrackets]) (by with_unfolding_all rfl)⟩

/-- Every year-to-date field of `r` is bounded (JS `<=`) by its
corresponding annual figure times `ytdProportion pd ed =
daysDiff pd ed / 365.25`; the annual figure for net is
`effectiveAnnualSalary − annualTax − annualTotalMedicareCharges` and for
super it is `effectiveAnnualSalary × superRate`. -/
def ytdWithinCeilings (i : InputState) (r : CalculationResults) (pd ed : CivilDate) : Prop :=
  jleB r.ytd.gross
      (jmul (effectiveAnnualSalary i) (some (ytdProportion pd ed))) = true ∧
  jleB r.ytd.tax (jmul (annualTax i) (some (ytdProportion pd ed))) = true ∧
  jleB r.ytd.medicareLevy
      (jmul (annualMedicareLevy i) (some (ytdProportion pd ed))) = true ∧
  jleB r.ytd.medicareLevySurcharge
      (jmul (annualMedicareLevySurcharge i) (some (ytdProportion pd ed))) = true ∧
  jleB r.ytd.totalMedicareCharges
      (jmul (annualTotalMedicareCharges i) (some (ytdProportion pd ed))) = true ∧
  jleB r.ytd.net
      (jmul (jsub (jsub (effectiveAnnualSalary i) (annualTax i))
        (annualTotalMedicareCharges i)) (some (ytdProportion pd ed))) = true ∧
  jleB r.ytd.super
      (jmul (jmul (effectiveAnnualSalary i) (some (superRates i.taxYear)))
        (some (ytdProportion pd ed))) = true

/-- C6: for every complete valid input (a result is produced, the dates are
present and the salary parses), every YTD field of the result is bounded by
its prorated annual ceiling `annual figure × ytdProportion`, with
`ytdProportion = elapsed days / 365.25`. -/
theorem c6_ytd_bounded (i : InputState) (r : CalculationResults) (pd ed : CivilDate) (s : ℚ)
    (h : calculateResults i = some r) (hpd : i.payDate = some pd)
    (hed : i.employmentStartDate = some ed) (hs : parseFloat i.annualSalary = some s) :
    ytdWithinCeilings i r pd ed := by
  obtain ⟨pd', pe', ed', hP, hE, hS, hA, rfl⟩ := calculateResults_some h
  rw [hpd] at hP
  obtain rfl := Option.some.inj hP
  rw [hed] at hS
  obtain rfl := Option.some.inj hS
  have hppne : periodsPerYear i ≠ 0 := getPayPeriodsPerYear_ne_zero i.payFrequency
  have heff : effectiveAnnualSalary i = some (s * fte i) := by
    simp [effectiveAnnualSalary, annualSalary, hs, jmul]
  have hg : grossPay i = some (s * fte i / periodsPerYear i) := by
    rw [grossPay, heff, jdiv_some hppne]
  obtain ⟨tv, htv⟩ := calculateTaxAux_isSome (s * fte i) (taxBrackets i.taxYear)
  have htax : annualTax i = some tv := by
    rw [annualTax, calculateTax, heff]; exact htv
  have htaxpp : taxPerPeriod i = some (tv / periodsPerYear i) := by
    rw [taxPerPeriod, htax, jdiv_some hppne]
  have hlev : annualMedicareLevy i =
      some (if s * fte i ≤ 27222 then 0
        else if s * fte i ≤ 34027 then
          s * fte i * 0.02 * (1 - (34027 - s * fte i) / (34027 - 27222))
        else s * fte i * 0.02) := by
    rw [annualMedicareLevy, heff, calculateMedicareLevy_some_eq]
  set lv := (if s * fte i ≤ 27222 then (0 : ℚ)
    else if s * fte i ≤ 34027 then
      s * fte i * 0.02 * (1 - (34027 - s * fte i) / (34027 - 27222))
    else s * fte i * 0.02) with hlvdef
  have hlevpp : medicareLevyPerPeriod i = some (lv / periodsPerYear i) := by
    rw [medicareLevyPerPeriod, hlev, jdiv_some hppne]
  obtain ⟨mv, hmv⟩ :=
    calculateMedicareLevySurcharge_isSome (s * fte i) i.taxYear i.hasPrivateHealthInsurance
  have hmls : annualMedicareLevySurcharge i = some mv := by
    rw [annualMedicareLevySurcharge, heff]; exact hmv
  have hmlspp : medicareLevySurchargePerPeriod i = some (mv / periodsPerYear i) := by
    rw [medicareLevySurchargePerPeriod, hmls, jdiv_some hppne]
  have htmc : annualTotalMedicareCharges i = some (lv + mv) := by
    rw [annualTotalMedicareCharges, hlev, hmls]; rfl
  have htmcpp : totalMedicareChargesPerPeriod i = some ((lv + mv) / periodsPerYear i) := by
    rw [totalMedicareChargesPerPeriod, htmc, jdiv_some hppne]
  have hnet : netPay i = some (s * fte i / periodsPerYear i - tv / periodsPerYear i -
      (lv + mv) / periodsPerYear i) := by
    rw [netPay, hg, htaxpp, htmcpp]; rfl
  have hsup : superannuation i =
      some (s * fte i / periodsPerYear i * superRates i.taxYear) := by
    rw [superannuation, hg]; rfl
  have key : ∀ a b c : ℚ, b = c → jleB (jmin (some a) (some b)) (some c) = true := by
    intro a b c hbc
    subst hbc
    simp only [jmin, jleB, decide_eq_true_eq]
    exact min_le_right a b
  refine ⟨?_, ?_, ?_, ?_, ?_, ?_, ?_⟩
  · show jleB (ytdGross i pd ed) _ = true
    rw [ytdGross, ytdMaxGross, heff, hg]
    simp only [jmul]
    exact key _ _ _ rfl
  · show jleB (ytdTax i pd ed) _ = true
    rw [ytdTax, ytdMaxTax, htax, htaxpp]
    simp only [jmul]
    exact key _ _ _ rfl
  · show jleB (ytdMedicareLevy i pd ed) _ = true
    rw [ytdMedicareLevy, ytdMaxMedicareLevy, hlev, hlevpp]
    simp only [jmul]
    exact key _ _ _ rfl
  · show jleB (ytdMedicareLevySurcharge i pd ed) _ = true
    rw [ytdMedicareLevySurcharge, ytdMaxMedicareLevySurcharge, hmls, hmlspp]
    simp only [jmul]
    exact key _ _ _ rfl
  · show jleB (ytdTotalMedicareCharges i pd ed) _ = true
    rw [ytdTotalMedicareCharges, ytdMaxTotalMedicareCharges, htmc, htmcpp]
    simp only [jmul]
    exact key _ _ _ rfl
  · show jleB (ytdNet i pd ed) _ = true
    rw [ytdNet, ytdMaxNet, ytdMaxGross, ytdMaxTax, ytdMaxTotalMedicareCharges,
      heff, htax, htmc, hnet]
    simp only [jmul, jsub]
    exact key _ _ _ (by ring)
  · show jleB (ytdSuper i pd ed) _ = true
    rw [ytdSuper, ytdMaxSuper, ytdMaxGross, heff, hsup]
    simp only [jmul]
    exact key _ _ _ (by ring)

/-- Witness for C6 on the concrete complete input. -/
theorem c6_ytd_bounded_witness :
    ytdWithinCeilings exInput (mkResults exInput ⟨2025, 10, 15⟩ ⟨2025, 7, 1⟩)
      ⟨2025, 10, 15⟩ ⟨2025, 7, 1⟩ :=
  c6_ytd_bounded exInput _ ⟨2025, 10, 15⟩ ⟨2025, 7, 1⟩ 90000 rfl rfl rfl rfl

end Payslip
